import Mathlib

/-!
Verification of the eye-tracking WebSocket backend (files `app.py`,
`eye_gaze.py`, `health_check.py`, `test_server.py`).

The repository contains two near-identical server variants sharing one
`EyeTracker` class shape:

* `app.py` — aiohttp-based (`handle_websocket`, `process_message`,
  `start_eye_tracking` with simulated data at 500 ms cadence);
* `eye_gaze.py` — websockets-based (`handle_client`, `process_message`,
  `start_eye_tracking` with live camera capture at 100 ms cadence).

This development shallowly embeds both variants.  Conventions:

* JSON values returned by `json.loads` are embedded as `JValue`; an inbound
  text frame carries `Option JValue` — `none` embeds a payload on which
  `json.loads` raises `JSONDecodeError`.
* Every outbound message in the source carries a `timestamp` field produced
  by `datetime.now().isoformat()`; timestamps are irrelevant to all claims
  and are omitted from `OutMsg`.
* The asyncio event loop is single-threaded: code between two `await`
  points runs atomically.  The capacity check-and-insert in both variants
  has no `await` between the length test and `set.add`, so admission is a
  single atomic step of the embedded semantics.
* Blocking loops (`while self.is_running`) are embedded as structural
  recursion over a finite list of tick observations ("fuel"); exhausting the
  list means the observation window closed while the loop was still running.
  Each tick records whether the outbound send succeeded and whether some
  other coroutine cleared the shared `is_running` flag during the
  `asyncio.sleep` suspension point of that tick.
-/

/-- Embedded JSON value, the result type of a successful `json.loads`.
Python dicts keep the last occurrence of a duplicated key, which `dictGet`
mirrors. -/
inductive JValue where
  | obj (fields : List (String × JValue))
  | str (s : String)
  | num (n : Int)
  | arr (elems : List JValue)
  | bool (b : Bool)
  | null

/-- Dictionary lookup, `data.get(key)`; the last binding of a key wins, as in
a Python dict built by `json.loads`. -/
def dictGet : List (String × JValue) → String → Option JValue
  | [], _ => none
  | (k, v) :: rest, key =>
    match dictGet rest key with
    | some r => some r
    | none => if k = key then some v else none

/-- Whether the payload is a JSON object (a Python `dict`).  Only a `dict`
has the `.get` attribute used by `process_message`. -/
def JValue.isObj : JValue → Bool
  | .obj _ => true
  | _ => false

/-- Outbound WebSocket messages, by `type` tag.  The `timestamp` field that
the source adds to every message is omitted (see module docstring). -/
inductive OutMsg where
  | connection (message : String) (version : String) (max_connections : Nat)
  | pong
  | eyeData (face_detected : Bool) (eye_count : Nat) (looking_away : Bool)
      (confidence : ℚ) (note : Option String)
  | errorMsg (message : String)
deriving DecidableEq

/-- Shared mutable state of the single `EyeTracker` instance.  Both source
variants keep `connected_clients` (a set of socket handles, embedded as
session ids) and ONE `is_running` flag on the tracker object — not per
session.  `cascadesLoaded` records whether the cascade classifiers loaded in
`__init__` (`app.py` sets them to `None` on failure and continues). -/
structure TrackerState where
  connected_clients : Finset Nat
  is_running : Bool
  cascadesLoaded : Bool
deriving DecidableEq

/-- Result of dispatching one parsed inbound message: either the handler
returned normally, or it raised an exception (e.g. `AttributeError` from
`data.get` on a non-dict), with the messages already sent before the raise. -/
inductive DispatchResult where
  | ok (st : TrackerState) (out : List OutMsg)
  | raised (st : TrackerState) (out : List OutMsg)
deriving DecidableEq

/-- An inbound WebSocket frame: a text frame whose payload parsed to
`some v`, a text frame whose payload failed JSON parsing (`none`), or a
transport-level error frame. -/
inductive Frame where
  | text (parse : Option JValue)
  | wsError

/-- Admission step shared by `app.py:75-80` and `eye_gaze.py:92-97`:
`if len(self.connected_clients) >= MAX_CONNECTIONS` close the socket with
code 1013 and reason "Server at capacity" and return without adding;
otherwise `self.connected_clients.add(ws)`.  No `await` separates the test
from the insert, so this is one atomic step. -/
def admitOrRefuse (maxConnections : Nat) (clients : Finset Nat) (sid : Nat) :
    Finset Nat × Option (Nat × String) :=
  if maxConnections ≤ clients.card then
    (clients, some (1013, "Server at capacity"))
  else
    (insert sid clients, none)

/-- Registry release, `self.connected_clients.discard(ws)` in the `finally`
blocks of both variants (the spec's `release`).  `set.discard` never raises
and is a no-op when the element is absent. -/
def release (clients : Finset Nat) (sid : Nat) : Finset Nat :=
  clients.erase sid

/-- Abstract connection events driving the registry. -/
inductive ConnEvent where
  | connect (sid : Nat)
  | disconnect (sid : Nat)

/-- Fold a sequence of connection attempts and disconnects through the
registry operations of the source (admission step and `discard`). -/
def runEvents (maxConnections : Nat) : Finset Nat → List ConnEvent → Finset Nat
  | clients, [] => clients
  | clients, ConnEvent.connect sid :: es =>
      runEvents maxConnections (admitOrRefuse maxConnections clients sid).1 es
  | clients, ConnEvent.disconnect sid :: es =>
      runEvents maxConnections (release clients sid) es

theorem runEvents_card_le (maxConnections : Nat) (es : List ConnEvent)
    (clients : Finset Nat) (h : clients.card ≤ maxConnections) :
    (runEvents maxConnections clients es).card ≤ maxConnections := by
  induction es generalizing clients with
  | nil => simpa [runEvents] using h
  | cons e es ih =>
    cases e with
    | connect sid =>
      by_cases hc : maxConnections ≤ clients.card
      · simpa [runEvents, admitOrRefuse, hc] using ih clients h
      · have hlt : clients.card < maxConnections := Nat.lt_of_not_le hc
        have : (insert sid clients).card ≤ maxConnections := by
          calc (insert sid clients).card ≤ clients.card + 1 :=
                Finset.card_insert_le _ _
            _ ≤ maxConnections := hlt
        simpa [runEvents, admitOrRefuse, hc] using ih _ this
    | disconnect sid =>
      have : (release clients sid).card ≤ maxConnections :=
        le_trans (Finset.card_le_card (Finset.erase_subset _ _)) h
      simpa [runEvents] using ih _ this

/-- One observed iteration ("tick") of the simulated emission loop of
`app.py:start_eye_tracking`.  `sendOk` — whether `ws.send_str` succeeded
(on failure the loop breaks); `externalStop` — whether some other coroutine
set the shared `is_running` flag to `False` during this tick's
`asyncio.sleep(0.5)`. -/
structure Tick where
  sendOk : Bool
  externalStop : Bool

namespace App

/-- The constant simulated payload built each iteration in
`app.py:156-164`. -/
def simulatedEyeData : OutMsg :=
  OutMsg.eyeData true 2 false (4/5)
    (some "Simulated data - camera not available in cloud environment")

/-- The `while self.is_running` loop of `app.py:start_eye_tracking`
(lines 155-172): each iteration re-reads the shared flag, sends the
simulated payload (breaking on a send error), then sleeps 500 ms — the only
suspension point at which another coroutine can clear the flag.  Exhausted
fuel means the observation window ended with the loop still running. -/
def simLoop : TrackerState → List Tick → TrackerState × List OutMsg
  | st, [] => (st, [])
  | st, t :: ts =>
    if st.is_running then
      if t.sendOk then
        let st1 := if t.externalStop then { st with is_running := false } else st
        let r := simLoop st1 ts
        (r.1, simulatedEyeData :: r.2)
      else (st, [])
    else (st, [])

/-- `app.py:start_eye_tracking`: if the cascade classifiers failed to load
in `__init__`, send one error message and return (without touching
`is_running`); otherwise set the shared `is_running := True` and enter the
simulated emission loop. -/
def start_eye_tracking (st : TrackerState) (ticks : List Tick) :
    TrackerState × List OutMsg :=
  if st.cascadesLoaded then
    simLoop { st with is_running := true } ticks
  else
    (st, [OutMsg.errorMsg "Eye tracking not available - cascade classifiers not loaded"])

/-- `app.py:process_message`: reads `data.get('type')` — which raises
`AttributeError` when `data` is not a dict — and dispatches.  Note that the
`start_tracking` branch `await`s `start_eye_tracking`, i.e. it runs the
entire emission loop before returning to the caller, and that
`stop_tracking` clears the one tracker-wide `is_running` flag. -/
def process_message (st : TrackerState) (data : JValue) (ticks : List Tick) :
    DispatchResult :=
  match data with
  | .obj fields =>
    match dictGet fields "type" with
    | some (.str s) =>
      if s = "start_tracking" then
        let r := start_eye_tracking st ticks
        .ok r.1 r.2
      else if s = "stop_tracking" then
        .ok { st with is_running := false } []
      else if s = "ping" then
        .ok st [OutMsg.pong]
      else
        .ok st []
    | _ => .ok st []
  | _ => .raised st []

end App

/-- Outcome of a session's inbound message loop: final tracker state, the
messages sent to this client by the loop, and whether an exception escaped
the loop (tearing the session down through the outer `except`/`finally`). -/
structure LoopOut where
  st : TrackerState
  out : List OutMsg
  torn : Bool
deriving DecidableEq

namespace App

/-- The `async for msg in ws` loop of `app.py:handle_websocket` (lines
97-111).  A `JSONDecodeError` is caught inside the loop and answered with
one error message; any other exception from `process_message` (e.g. the
`AttributeError` on a non-dict payload) is NOT caught by the inner
`except json.JSONDecodeError` and escapes the loop.  Each frame carries the
tick fuel its dispatch would consume if it starts the emission loop. -/
def messageLoop : TrackerState → List (Frame × List Tick) → LoopOut
  | st, [] => ⟨st, [], false⟩
  | st, (Frame.text none, _) :: rest =>
    let r := messageLoop st rest
    ⟨r.st, OutMsg.errorMsg "Invalid JSON format" :: r.out, r.torn⟩
  | st, (Frame.text (some v), ticks) :: rest =>
    match process_message st v ticks with
    | .ok st1 out =>
      let r := messageLoop st1 rest
      ⟨r.st, out ++ r.out, r.torn⟩
    | .raised st1 out => ⟨st1, out, true⟩
  | st, (Frame.wsError, _) :: _ => ⟨st, [], false⟩

end App

/-- Observable outcome of one session handler run: the registry contents
after the handler returns, final shared flag, the messages sent to this
client, and the explicit close frame if the server closed the socket with a
code and reason. -/
structure SessionResult where
  clients : Finset Nat
  is_running : Bool
  sent : List OutMsg
  closed : Option (Nat × String)
deriving DecidableEq

/-- The welcome message sent on admission (`type: connection`) in both
variants. -/
def welcomeMsg (maxConnections : Nat) : OutMsg :=
  OutMsg.connection "Eye tracking connected" "1.0.0" maxConnections

namespace App

/-- `app.py:handle_websocket` (lines 70-119): capacity check, welcome
message, inbound loop, and the `finally` block's
`connected_clients.discard(ws)`.  On capacity refusal the handler returns
BEFORE the `try`, so `discard` does not run on that path. -/
def handle_websocket (maxConnections : Nat) (st : TrackerState) (sid : Nat)
    (frames : List (Frame × List Tick)) : SessionResult :=
  match admitOrRefuse maxConnections st.connected_clients sid with
  | (_, some closeFrame) =>
    ⟨st.connected_clients, st.is_running, [], some closeFrame⟩
  | (clients1, none) =>
    let r := messageLoop { st with connected_clients := clients1 } frames
    ⟨release r.st.connected_clients sid, r.st.is_running,
      welcomeMsg maxConnections :: r.out, none⟩

end App

/-- The mutable `eye_data` record built per processed frame in
`eye_gaze.py:204-236` (the `type` and `timestamp` keys are carried by the
resulting `OutMsg`). -/
structure EyeData where
  face_detected : Bool
  eye_count : Nat
  looking_away : Bool
  confidence : ℚ
deriving DecidableEq

namespace Gaze

/-- The confidence calculation of `eye_gaze.py:227-232`:
`min(1.0, len(eyes) / 2.0)` when `len(faces) > 0 and len(eyes) >= 2`, `0.5`
when `len(faces) > 0`, else `0.0`.  All values are dyadic, so embedding the
Python floats as rationals is exact. -/
def confOf (numFaces : Nat) (eyes : Nat) : ℚ :=
  if 0 < numFaces ∧ 2 ≤ eyes then min 1 ((eyes : ℚ) / 2)
  else if 0 < numFaces then 1/2
  else 0

/-- One iteration of the `for (x, y, w, h) in faces:` loop in
`eye_gaze.py:213-232`.  `numFaces` is `len(faces)`; `eyes` is the number of
eye rectangles detected inside this face region.  The iteration overwrites
`eye_count` and `confidence`; the other fields pass through. -/
def detectStep (numFaces : Nat) (ed : EyeData) (eyes : Nat) : EyeData :=
  { ed with
    eye_count := eyes
    confidence := confOf numFaces eyes }

/-- Detection of one captured frame, `eye_gaze.py:196-236`: run face
detection, initialise `eye_data`, loop over the detected faces running eye
detection in each region, then set `looking_away` when no face was found or
the final `eye_count` is below 2.  A frame is abstracted by the list of
per-face eye counts (one entry per face rectangle the classifier returned). -/
def processFrame (faces : List Nat) : EyeData :=
  let base : EyeData :=
    { face_detected := decide (0 < faces.length)
      eye_count := 0
      looking_away := false
      confidence := 0 }
  let ed := faces.foldl (detectStep faces.length) base
  if faces.length = 0 ∨ ed.eye_count < 2 then
    { ed with looking_away := true }
  else ed

end Gaze

/-- One observed iteration of the live capture loop of
`eye_gaze.py:start_eye_tracking`.  `readOk` — whether `cap.read()` returned
a frame (`ret`); `faces` — the per-face eye counts the classifiers produce
on that frame; `sendOk` — whether `websocket.send` succeeded (on
`ConnectionClosed` or any other send error the loop breaks); `externalStop`
— whether another coroutine cleared the shared flag during this tick's
`asyncio.sleep(0.1)`. -/
structure LiveTick where
  readOk : Bool
  faces : List Nat
  sendOk : Bool
  externalStop : Bool

namespace Gaze

/-- The `while self.is_running` loop of `eye_gaze.py:187-249`.  On a failed
read (`if not ret: continue`) the iteration sends nothing and loops straight
back — `cap.read()` is synchronous, so no other coroutine can intervene on
that path. -/
def liveLoop : TrackerState → List LiveTick → TrackerState × List OutMsg
  | st, [] => (st, [])
  | st, t :: ts =>
    if st.is_running then
      if t.readOk then
        let ed := processFrame t.faces
        if t.sendOk then
          let st1 := if t.externalStop then { st with is_running := false } else st
          let r := liveLoop st1 ts
          (r.1, OutMsg.eyeData ed.face_detected ed.eye_count ed.looking_away
            ed.confidence none :: r.2)
        else (st, [])
      else liveLoop st ts
    else (st, [])

/-- `eye_gaze.py:start_eye_tracking` (lines 153-256): sets the shared
`is_running := True` FIRST, then tries camera indices 0-2; if none opens it
sends one error message and returns (leaving the flag set); otherwise it
runs the live capture loop (`camAvailable` abstracts whether any
`cv2.VideoCapture(i)` opened). -/
def start_eye_tracking (st : TrackerState) (camAvailable : Bool)
    (ticks : List LiveTick) : TrackerState × List OutMsg :=
  let st1 := { st with is_running := true }
  if camAvailable then
    liveLoop st1 ticks
  else
    (st1, [OutMsg.errorMsg "Could not open camera - no camera available"])

/-- `eye_gaze.py:process_message` (lines 135-151): identical dispatch to the
aiohttp variant, except that `start_tracking` runs the live capture loop. -/
def process_message (st : TrackerState) (data : JValue) (camAvailable : Bool)
    (ticks : List LiveTick) : DispatchResult :=
  match data with
  | .obj fields =>
    match dictGet fields "type" with
    | some (.str s) =>
      if s = "start_tracking" then
        let r := start_eye_tracking st camAvailable ticks
        .ok r.1 r.2
      else if s = "stop_tracking" then
        .ok { st with is_running := false } []
      else if s = "ping" then
        .ok st [OutMsg.pong]
      else
        .ok st []
    | _ => .ok st []
  | _ => .raised st []

/-- The `async for message in websocket` loop of `eye_gaze.py:handle_client`
(lines 113-125).  Unlike the aiohttp variant, a second handler
`except Exception` sits INSIDE the loop, so an exception raised by
`process_message` (e.g. `AttributeError` on a non-dict payload) is logged
and the loop continues with the next frame. -/
def messageLoop (camAvailable : Bool) :
    TrackerState → List (Frame × List LiveTick) → TrackerState × List OutMsg
  | st, [] => (st, [])
  | st, (Frame.text none, _) :: rest =>
    let r := messageLoop camAvailable st rest
    (r.1, OutMsg.errorMsg "Invalid JSON format" :: r.2)
  | st, (Frame.text (some v), ticks) :: rest =>
    match process_message st v camAvailable ticks with
    | .ok st1 out =>
      let r := messageLoop camAvailable st1 rest
      (r.1, out ++ r.2)
    | .raised st1 out =>
      let r := messageLoop camAvailable st1 rest
      (r.1, out ++ r.2)
  | st, (Frame.wsError, _) :: _ => (st, [])

/-- `eye_gaze.py:handle_client` (lines 88-133): capacity check, welcome
message, inbound loop, and the `finally` block's `discard`.  Here the
capacity-refusal `return` sits INSIDE the `try`, so `discard` runs (as a
no-op) on that path too. -/
def handle_client (maxConnections : Nat) (camAvailable : Bool)
    (st : TrackerState) (sid : Nat) (frames : List (Frame × List LiveTick)) :
    SessionResult :=
  match admitOrRefuse maxConnections st.connected_clients sid with
  | (_, some closeFrame) =>
    ⟨release st.connected_clients sid, st.is_running, [], some closeFrame⟩
  | (clients1, none) =>
    let r := messageLoop camAvailable { st with connected_clients := clients1 } frames
    ⟨release r.1.connected_clients sid, r.1.is_running,
      welcomeMsg maxConnections :: r.2, none⟩

end Gaze

/-- The inbound payload `type: start_tracking`. -/
def startCmd : JValue := JValue.obj [("type", JValue.str "start_tracking")]

/-- The inbound payload `type: stop_tracking`. -/
def stopCmd : JValue := JValue.obj [("type", JValue.str "stop_tracking")]

/-- The inbound payload `type: ping`. -/
def pingCmd : JValue := JValue.obj [("type", JValue.str "ping")]

/-- Fuel of `n` uneventful emission ticks: every send succeeds and no other
coroutine touches the shared flag. -/
def okTicks (n : Nat) : List Tick := List.replicate n ⟨true, false⟩

namespace App

/-- Two-client interleaving harness for `app.py` under the asyncio
single-thread semantics.  Client A's simulated emission loop (entered via
A's `start_tracking`) shares the tracker's single `is_running` flag with
every other session.  Each schedule slot is one A emission iteration: A
re-reads the shared flag, sends its payload, and during A's
`asyncio.sleep(0.5)` the event loop dispatches B's pending inbound message
(if any) through the same `process_message` on the shared state (a
`start_tracking` from B is given no emission fuel inside the observed
window).  Returns the final state, the `eye_data` stream A received, and
the replies B received. -/
def interleaveAB : TrackerState → List (Option JValue) →
    TrackerState × List OutMsg × List OutMsg
  | st, [] => (st, [], [])
  | st, bMsg :: rest =>
    if st.is_running then
      let stepB : TrackerState × List OutMsg :=
        match bMsg with
        | none => (st, [])
        | some v =>
          match process_message st v [] with
          | .ok s o => (s, o)
          | .raised s o => (s, o)
      let r := interleaveAB stepB.1 rest
      (r.1, simulatedEyeData :: r.2.1, stepB.2 ++ r.2.2)
    else (st, [], [])

end App

/-- A tracker fresh from `__init__` with the classifiers loaded: no
connected clients, `is_running = False`. -/
def tracker0 : TrackerState := ⟨∅, false, true⟩

namespace App

/-- Dispatch of an object payload reduces to the if-chain on its `type`
field. -/
theorem process_message_get (st : TrackerState) (ticks : List Tick)
    (fields : List (String × JValue)) (s : String)
    (h : dictGet fields "type" = some (JValue.str s)) :
    process_message st (JValue.obj fields) ticks =
      (if s = "start_tracking" then
        DispatchResult.ok (start_eye_tracking st ticks).1 (start_eye_tracking st ticks).2
      else if s = "stop_tracking" then
        DispatchResult.ok { st with is_running := false } []
      else if s = "ping" then
        DispatchResult.ok st [OutMsg.pong]
      else
        DispatchResult.ok st []) := by
  simp only [process_message]
  rw [h]

/-- Dispatching `start_tracking` awaits the whole emission loop. -/
theorem process_message_start (st : TrackerState) (ticks : List Tick) :
    process_message st startCmd ticks =
      DispatchResult.ok (start_eye_tracking st ticks).1
        (start_eye_tracking st ticks).2 := by
  rw [startCmd, process_message_get st ticks [("type", JValue.str "start_tracking")]
    "start_tracking" rfl]
  rfl

/-- Dispatching `stop_tracking` clears the single tracker-wide flag. -/
theorem process_message_stop (st : TrackerState) (ticks : List Tick) :
    process_message st stopCmd ticks =
      DispatchResult.ok { st with is_running := false } [] := by
  rw [stopCmd, process_message_get st ticks [("type", JValue.str "stop_tracking")]
    "stop_tracking" rfl]
  rfl

/-- Dispatching `ping` sends exactly one `pong` and changes nothing. -/
theorem process_message_ping (st : TrackerState) (ticks : List Tick) :
    process_message st pingCmd ticks = DispatchResult.ok st [OutMsg.pong] := by
  rw [pingCmd, process_message_get st ticks [("type", JValue.str "ping")] "ping" rfl]
  rfl

/-- Loop step for a frame whose dispatch returns normally. -/
theorem messageLoop_ok (st st1 : TrackerState) (v : JValue) (ticks : List Tick)
    (out : List OutMsg) (rest : List (Frame × List Tick))
    (h : process_message st v ticks = DispatchResult.ok st1 out) :
    messageLoop st ((Frame.text (some v), ticks) :: rest) =
      ⟨(messageLoop st1 rest).st, out ++ (messageLoop st1 rest).out,
        (messageLoop st1 rest).torn⟩ := by
  simp [messageLoop, h]

/-- With the classifiers loaded, `start_eye_tracking` sets the shared flag
and runs the emission loop. -/
theorem start_eye_tracking_loaded (st : TrackerState) (ticks : List Tick)
    (h : st.cascadesLoaded = true) :
    start_eye_tracking st ticks = simLoop { st with is_running := true } ticks := by
  simp [start_eye_tracking, h]

/-- The emission loop is inert once the shared flag is false. -/
theorem simLoop_not_running (st : TrackerState) (ts : List Tick)
    (h : st.is_running = false) : simLoop st ts = (st, []) := by
  cases ts with
  | nil => rfl
  | cons t ts => simp [simLoop, h]

theorem simLoop_replicate (n : Nat) (st : TrackerState) (h : st.is_running = true) :
    simLoop st (List.replicate n ⟨true, false⟩) =
      (st, List.replicate n simulatedEyeData) := by
  induction n with
  | zero => rfl
  | succ n ih =>
    rw [List.replicate_succ]
    simp [simLoop, h, ih, List.replicate_succ]

/-- Over `n` uneventful ticks a running emission loop sends exactly `n`
simulated payloads and is still running afterwards. -/
theorem simLoop_okTicks (n : Nat) (st : TrackerState) (h : st.is_running = true) :
    simLoop st (okTicks n) = (st, List.replicate n simulatedEyeData) := by
  rw [okTicks]; exact simLoop_replicate n st h

end App

namespace Gaze

/-- Dispatch of an object payload reduces to the if-chain on its `type`
field (websockets variant). -/
theorem process_message_get_live (st : TrackerState) (cam : Bool) (ticks : List LiveTick)
    (fields : List (String × JValue)) (s : String)
    (h : dictGet fields "type" = some (JValue.str s)) :
    process_message st (JValue.obj fields) cam ticks =
      (if s = "start_tracking" then
        DispatchResult.ok (start_eye_tracking st cam ticks).1
          (start_eye_tracking st cam ticks).2
      else if s = "stop_tracking" then
        DispatchResult.ok { st with is_running := false } []
      else if s = "ping" then
        DispatchResult.ok st [OutMsg.pong]
      else
        DispatchResult.ok st []) := by
  simp only [process_message]
  rw [h]

/-- Dispatching `stop_tracking` clears the single tracker-wide flag
(websockets variant). -/
theorem process_message_stop_live (st : TrackerState) (cam : Bool) (ticks : List LiveTick) :
    process_message st stopCmd cam ticks =
      DispatchResult.ok { st with is_running := false } [] := by
  rw [stopCmd, process_message_get_live st cam ticks [("type", JValue.str "stop_tracking")]
    "stop_tracking" rfl]
  rfl

/-- Dispatching `ping` sends exactly one `pong` (websockets variant). -/
theorem process_message_ping_live (st : TrackerState) (cam : Bool) (ticks : List LiveTick) :
    process_message st pingCmd cam ticks = DispatchResult.ok st [OutMsg.pong] := by
  rw [pingCmd, process_message_get_live st cam ticks [("type", JValue.str "ping")] "ping" rfl]
  rfl

/-- The live capture loop is inert once the shared flag is false. -/
theorem liveLoop_not_running (st : TrackerState) (ts : List LiveTick)
    (h : st.is_running = false) : liveLoop st ts = (st, []) := by
  cases ts with
  | nil => rfl
  | cons t ts => simp [liveLoop, h]

/-- The live capture loop never emits an error message: its only sends are
`eye_data` payloads. -/
theorem liveLoop_no_error (st : TrackerState) (ts : List LiveTick) (s : String) :
    OutMsg.errorMsg s ∉ (liveLoop st ts).2 := by
  induction ts generalizing st with
  | nil => simp [liveLoop]
  | cons t ts ih =>
    by_cases hr : st.is_running
    · by_cases hread : t.readOk
      · by_cases hsend : t.sendOk
        · simp only [liveLoop, hr, hread, hsend, if_true]
          simp [ih]
        · simp [liveLoop, hr, hread, hsend]
      · simp only [liveLoop, hr, hread, if_true, Bool.false_eq_true, if_false]
        exact ih st
    · simp [liveLoop, hr]

end Gaze

namespace Gaze

/-- Each face-loop iteration overwrites `eye_count` and `confidence` and
passes the other two fields through. -/
theorem detectStep_fields (n : Nat) (ed : EyeData) (e : Nat) :
    detectStep n ed e = ⟨ed.face_detected, e, ed.looking_away, confOf n e⟩ := rfl

/-- The face loop's final `eye_count`/`confidence` come from the LAST face
rectangle; `face_detected` and `looking_away` are untouched. -/
theorem foldl_detectStep (n : Nat) (l : List Nat) (a : Nat) (base : EyeData) :
    (l ++ [a]).foldl (detectStep n) base =
      ⟨base.face_detected, a, base.looking_away, confOf n a⟩ := by
  induction l generalizing base with
  | nil => rfl
  | cons b l ih =>
    rw [List.cons_append, List.foldl_cons, ih]
    rfl

/-- Closed form of `processFrame` on a non-empty face list. -/
theorem processFrame_concat (l : List Nat) (a : Nat) :
    processFrame (l ++ [a]) =
      ⟨true, a, decide (a < 2), confOf (l ++ [a]).length a⟩ := by
  unfold processFrame
  dsimp only
  rw [foldl_detectStep]
  have hlen : (l ++ [a]).length = l.length + 1 := by simp
  by_cases ha : a < 2
  · simp [hlen, ha]
  · simp [hlen, ha]

theorem confOf_nonneg (n e : Nat) : 0 ≤ confOf n e := by
  unfold confOf
  split
  · exact le_min (by norm_num) (by positivity)
  · split
    · norm_num
    · norm_num

theorem confOf_le_one (n e : Nat) : confOf n e ≤ 1 := by
  unfold confOf
  split
  · exact min_le_left _ _
  · split
    · norm_num
    · norm_num

end Gaze

/-- C1: over every sequence of connection attempts (and disconnects) the
registry never exceeds `MAX_CONNECTIONS`; a connection arriving at or above
the bound is closed with code 1013, reason "Server at capacity", is never
added, and the registry contents are unchanged (in both variants). -/
theorem connection_capacity_invariant :
    (∀ (maxConnections : Nat) (es : List ConnEvent),
      (runEvents maxConnections ∅ es).card ≤ maxConnections) ∧
    (∀ (maxConnections : Nat) (st : TrackerState) (sid : Nat)
        (frames : List (Frame × List Tick)),
      maxConnections ≤ st.connected_clients.card →
      App.handle_websocket maxConnections st sid frames =
        ⟨st.connected_clients, st.is_running, [], some (1013, "Server at capacity")⟩) ∧
    (∀ (maxConnections : Nat) (cam : Bool) (st : TrackerState) (sid : Nat)
        (frames : List (Frame × List LiveTick)),
      maxConnections ≤ st.connected_clients.card →
      sid ∉ st.connected_clients →
      Gaze.handle_client maxConnections cam st sid frames =
        ⟨st.connected_clients, st.is_running, [], some (1013, "Server at capacity")⟩) := by
  refine ⟨?_, ?_, ?_⟩
  · intro maxConnections es
    exact runEvents_card_le maxConnections es ∅ (by simp)
  · intro maxConnections st sid frames h
    simp [App.handle_websocket, admitOrRefuse, h]
  · intro maxConnections cam st sid frames h hsid
    simp [Gaze.handle_client, admitOrRefuse, h, release,
      Finset.erase_eq_of_not_mem hsid]

theorem connection_capacity_invariant_witness :
    1 ≤ (TrackerState.mk {5} false true).connected_clients.card ∧
    App.handle_websocket 1 (TrackerState.mk {5} false true) 7 [] =
      ⟨{5}, false, [], some (1013, "Server at capacity")⟩ :=
  ⟨by decide, connection_capacity_invariant.2.1 1 (TrackerState.mk {5} false true) 7 []
    (by decide)⟩

/-- C5: `release` (the `finally` block's `connected_clients.discard(ws)`)
is idempotent — a second release of the same session changes nothing, in
particular the count — and releasing a session that was never admitted is a
no-op (and, being a total function, raises nothing). -/
theorem release_idempotent_noop :
    (∀ (clients : Finset Nat) (sid : Nat),
      release (release clients sid) sid = release clients sid) ∧
    (∀ (clients : Finset Nat) (sid : Nat),
      (release (release clients sid) sid).card = (release clients sid).card) ∧
    (∀ (clients : Finset Nat) (sid : Nat),
      sid ∉ clients → release clients sid = clients) := by
  refine ⟨?_, ?_, ?_⟩
  · intro clients sid
    simp [release, Finset.erase_idem]
  · intro clients sid
    simp [release, Finset.erase_idem]
  · intro clients sid h
    simp [release, Finset.erase_eq_of_not_mem h]

theorem release_idempotent_noop_witness :
    5 ∉ ({1, 2} : Finset Nat) ∧ release {1, 2} 5 = {1, 2} :=
  ⟨by decide, release_idempotent_noop.2.2 {1, 2} 5 (by decide)⟩

/-- C6: an inbound text frame that fails JSON parsing produces exactly one
error reply with message "Invalid JSON format" (plus timestamp, see module
docstring) and the session is not closed: in both variants the loop keeps
the tracker state unchanged and processes the remaining frames exactly as
it would have without the malformed frame. -/
theorem malformed_json_single_error_session_continues :
    ∀ (st : TrackerState) (ticks : List Tick) (lticks : List LiveTick)
      (rest : List (Frame × List Tick)) (grest : List (Frame × List LiveTick))
      (cam : Bool),
      App.messageLoop st ((Frame.text none, ticks) :: rest) =
        ⟨(App.messageLoop st rest).st,
          OutMsg.errorMsg "Invalid JSON format" :: (App.messageLoop st rest).out,
          (App.messageLoop st rest).torn⟩ ∧
      App.messageLoop st [(Frame.text none, ticks)] =
        ⟨st, [OutMsg.errorMsg "Invalid JSON format"], false⟩ ∧
      Gaze.messageLoop cam st ((Frame.text none, lticks) :: grest) =
        ((Gaze.messageLoop cam st grest).1,
          OutMsg.errorMsg "Invalid JSON format" :: (Gaze.messageLoop cam st grest).2) :=
  fun _ _ _ _ _ _ => ⟨rfl, rfl, rfl⟩

/-- C2 counterexample: two runs of the two-client system that differ ONLY in
client B's inbound commands produce different `eye_data` streams for client
A.  A is mid-emission; in the first run B sends `stop_tracking` during A's
first sleep, in the second run B sends nothing.  B's command halts A's
stream after one message because `stop_tracking` clears the single
tracker-wide `is_running` flag that A's emission loop polls. -/
theorem tracking_flag_shared_counterexample :
    (App.interleaveAB ⟨{0, 1}, true, true⟩ [some stopCmd, none]).2.1 =
      [App.simulatedEyeData] ∧
    (App.interleaveAB ⟨{0, 1}, true, true⟩ [none, none]).2.1 =
      [App.simulatedEyeData, App.simulatedEyeData] ∧
    [App.simulatedEyeData] ≠ [App.simulatedEyeData, App.simulatedEyeData] :=
  ⟨rfl, rfl, fun h => absurd (congrArg List.length h) (by decide)⟩

/-- C2 amended: the tracking flag is NOT per-session — both variants keep
one `is_running` field on the shared `EyeTracker`, and a `stop_tracking`
dispatched from ANY client sets that shared flag to false, after which no
session's emission loop (simulated or live) sends anything further.  Hence
client B's commands can change client A's `eye_data` stream. -/
theorem stop_tracking_global_flag :
    ∀ (st : TrackerState) (fields : List (String × JValue)) (ticks : List Tick)
      (lticks : List LiveTick) (cam : Bool),
      dictGet fields "type" = some (JValue.str "stop_tracking") →
      App.process_message st (JValue.obj fields) ticks =
        DispatchResult.ok { st with is_running := false } [] ∧
      Gaze.process_message st (JValue.obj fields) cam lticks =
        DispatchResult.ok { st with is_running := false } [] ∧
      (∀ ts, App.simLoop { st with is_running := false } ts =
        ({ st with is_running := false }, [])) ∧
      (∀ ts, Gaze.liveLoop { st with is_running := false } ts =
        ({ st with is_running := false }, [])) := by
  intro st fields ticks lticks cam h
  refine ⟨?_, ?_, ?_, ?_⟩
  · rw [App.process_message_get st ticks fields "stop_tracking" h]
    rfl
  · rw [Gaze.process_message_get_live st cam lticks fields "stop_tracking" h]
    rfl
  · intro ts
    exact App.simLoop_not_running _ ts rfl
  · intro ts
    exact Gaze.liveLoop_not_running _ ts rfl

theorem stop_tracking_global_flag_witness :
    dictGet [("type", JValue.str "stop_tracking")] "type" =
      some (JValue.str "stop_tracking") ∧
    App.process_message ⟨{0, 1}, true, true⟩
        (JValue.obj [("type", JValue.str "stop_tracking")]) [] =
      DispatchResult.ok ⟨{0, 1}, false, true⟩ [] :=
  ⟨rfl, (stop_tracking_global_flag ⟨{0, 1}, true, true⟩
    [("type", JValue.str "stop_tracking")] [] [] true rfl).1⟩

/-- C3 counterexample: a ping queued immediately behind `start_tracking` is
answered only AFTER the entire emission output, at a trace position that
grows with the emission fuel (position 1 with one tick, position 3 with
three).  Were the claim true — `process_message` returning control to the
inbound loop without waiting for the emission activity — the pong's position
could not depend on how long the emission loop runs. -/
theorem inbound_loop_blocked_counterexample :
    (App.messageLoop tracker0 [(Frame.text (some startCmd), okTicks 1),
      (Frame.text (some pingCmd), [])]).out =
      [App.simulatedEyeData, OutMsg.pong] ∧
    (App.messageLoop tracker0 [(Frame.text (some startCmd), okTicks 3),
      (Frame.text (some pingCmd), [])]).out =
      [App.simulatedEyeData, App.simulatedEyeData, App.simulatedEyeData,
        OutMsg.pong] :=
  ⟨rfl, rfl⟩

/-- C3 amended: dispatching `start_tracking` does NOT return control to the
inbound loop until the emission loop stops — `process_message` awaits
`start_eye_tracking`, which contains the `while self.is_running` loop.  For
every window length `n`, all `n` emission messages precede the pong that
answers a ping queued right behind the `start_tracking`: no later command
from the same client is processed during active tracking. -/
theorem start_tracking_blocks_inbound_loop :
    ∀ (st : TrackerState) (n : Nat) (ticks2 : List Tick),
      st.cascadesLoaded = true →
      (App.messageLoop st [(Frame.text (some startCmd), okTicks n),
        (Frame.text (some pingCmd), ticks2)]).out =
        List.replicate n App.simulatedEyeData ++ [OutMsg.pong] := by
  intro st n ticks2 h
  have hstart : App.process_message st startCmd (okTicks n) =
      DispatchResult.ok { st with is_running := true }
        (List.replicate n App.simulatedEyeData) := by
    rw [App.process_message_start, App.start_eye_tracking_loaded st (okTicks n) h,
      App.simLoop_okTicks n { st with is_running := true } rfl]
  rw [App.messageLoop_ok st { st with is_running := true } startCmd (okTicks n)
    (List.replicate n App.simulatedEyeData) [(Frame.text (some pingCmd), ticks2)] hstart]
  rw [App.messageLoop_ok { st with is_running := true } { st with is_running := true }
    pingCmd ticks2 [OutMsg.pong] [] (App.process_message_ping _ _)]
  simp [App.messageLoop]

theorem start_tracking_blocks_inbound_loop_witness :
    tracker0.cascadesLoaded = true ∧
    (App.messageLoop tracker0 [(Frame.text (some startCmd), okTicks 2),
      (Frame.text (some pingCmd), [])]).out =
      List.replicate 2 App.simulatedEyeData ++ [OutMsg.pong] :=
  ⟨rfl, start_tracking_blocks_inbound_loop tracker0 2 [] rfl⟩

/-- C4: a client that is tracking and sends `stop_tracking` keeps receiving
`eye_data` — for EVERY window length `n` the trace holds `n` eye_data
messages and nothing of the queued stop, because the inbound loop is stuck
inside `await self.start_eye_tracking(ws)` and never reads the stop frame
while the emission loop runs; the stop takes effect (flag false, second
conjunct) only once the emission window has already ended.  This
contradicts the claimed bound of no further `eye_data` within 2 emission
intervals of the stop being sent. -/
theorem stop_tracking_unreachable_during_tracking :
    ∀ n : Nat,
      (App.messageLoop tracker0 [(Frame.text (some startCmd), okTicks n),
        (Frame.text (some stopCmd), [])]).out =
        List.replicate n App.simulatedEyeData ∧
      (App.messageLoop tracker0 [(Frame.text (some startCmd), okTicks n),
        (Frame.text (some stopCmd), [])]).st.is_running = false := by
  intro n
  have hstart : App.process_message tracker0 startCmd (okTicks n) =
      DispatchResult.ok { tracker0 with is_running := true }
        (List.replicate n App.simulatedEyeData) := by
    rw [App.process_message_start,
      App.start_eye_tracking_loaded tracker0 (okTicks n) rfl,
      App.simLoop_okTicks n { tracker0 with is_running := true } rfl]
  rw [App.messageLoop_ok tracker0 { tracker0 with is_running := true } startCmd
    (okTicks n) (List.replicate n App.simulatedEyeData)
    [(Frame.text (some stopCmd), [])] hstart]
  rw [App.messageLoop_ok { tracker0 with is_running := true }
    { tracker0 with is_running := false } stopCmd [] [] []
    (App.process_message_stop _ _)]
  simp [App.messageLoop]

/-- C7: for every processed frame in live mode, the emitted detection
result satisfies the claimed confidence/looking-away relations: confidence
is `min(1, eyeCount/2)` when a face and at least one eye were found (for
exactly one eye both the claim's formula and the code's `0.5` branch give
`1/2`), `0.5` when a face but at most one eye, `0` when no face;
`looking_away` holds exactly when no face was detected or fewer than 2 eyes
were found; and confidence always lies in `[0, 1]` (`eye_count`, a list
length, is a `Nat` and hence trivially nonnegative). -/
theorem processFrame_confidence_spec (faces : List Nat) :
    (0 ≤ (Gaze.processFrame faces).confidence ∧
      (Gaze.processFrame faces).confidence ≤ 1) ∧
    ((Gaze.processFrame faces).looking_away = true ↔
      faces = [] ∨ (Gaze.processFrame faces).eye_count < 2) ∧
    (faces = [] →
      (Gaze.processFrame faces).confidence = 0 ∧
      (Gaze.processFrame faces).face_detected = false) ∧
    (faces ≠ [] → 1 ≤ (Gaze.processFrame faces).eye_count →
      (Gaze.processFrame faces).confidence =
        min 1 (((Gaze.processFrame faces).eye_count : ℚ) / 2)) ∧
    (faces ≠ [] → (Gaze.processFrame faces).eye_count ≤ 1 →
      (Gaze.processFrame faces).confidence = 1/2) := by
  rcases List.eq_nil_or_concat' faces with rfl | ⟨l, a, rfl⟩
  · refine ⟨⟨le_refl 0,
      by rw [show (Gaze.processFrame []).confidence = 0 from rfl]; norm_num⟩,
      ?_, fun _ => ⟨rfl, rfl⟩, ?_, ?_⟩
    · simp [Gaze.processFrame]
    · intro h; exact absurd rfl h
    · intro h; exact absurd rfl h
  · have hne : l ++ [a] ≠ [] := by simp
    rw [Gaze.processFrame_concat]
    have hpos : 0 < (l ++ [a]).length := by simp
    refine ⟨⟨Gaze.confOf_nonneg _ _, Gaze.confOf_le_one _ _⟩, ?_, ?_, ?_, ?_⟩
    · constructor
      · intro hla
        right
        simpa using hla
      · intro hla
        rcases hla with hnil | hlt
        · exact absurd hnil hne
        · simpa using hlt
    · intro h; exact absurd h hne
    · intro _ hge
      dsimp at hge ⊢
      by_cases h2 : 2 ≤ a
      · rw [Gaze.confOf, if_pos ⟨hpos, h2⟩]
      · have ha1 : a = 1 := by omega
        subst ha1
        rw [Gaze.confOf, if_neg (by omega), if_pos hpos]
        rw [eq_comm, min_eq_right]
        · norm_num
        · norm_num
    · intro _ hle
      dsimp at hle ⊢
      rw [Gaze.confOf, if_neg (by omega), if_pos hpos]

theorem processFrame_confidence_spec_witness :
    ([0, 3] : List Nat) ≠ [] ∧ 1 ≤ (Gaze.processFrame [0, 3]).eye_count ∧
    (Gaze.processFrame [0, 3]).confidence =
      min 1 (((Gaze.processFrame [0, 3]).eye_count : ℚ) / 2) :=
  ⟨by decide, by decide,
    (processFrame_confidence_spec [0, 3]).2.2.2.1 (by decide) (by decide)⟩

/-- C8: a failed single-frame read (`cap.read()` returning `ret = False`)
is silently retried — that loop iteration sends nothing, does not terminate
the loop and does not tear the session down (`continue` goes straight back
to the `while` test), and the live loop never surfaces any error message to
the client at all. -/
theorem failed_frame_read_retry :
    ∀ (st : TrackerState) (t : LiveTick) (ts : List LiveTick),
      t.readOk = false →
      Gaze.liveLoop st (t :: ts) = Gaze.liveLoop st ts ∧
      (∀ (st2 : TrackerState) (ts2 : List LiveTick) (s : String),
        OutMsg.errorMsg s ∉ (Gaze.liveLoop st2 ts2).2) := by
  intro st t ts h
  constructor
  · by_cases hr : st.is_running
    · simp [Gaze.liveLoop, hr, h]
    · have hr' : st.is_running = false := by
        cases hst : st.is_running
        · rfl
        · exact absurd hst hr
      rw [Gaze.liveLoop_not_running st (t :: ts) hr',
        Gaze.liveLoop_not_running st ts hr']
  · intro st2 ts2 s
    exact Gaze.liveLoop_no_error st2 ts2 s

theorem failed_frame_read_retry_witness :
    (LiveTick.mk false [] true false).readOk = false ∧
    Gaze.liveLoop ⟨∅, true, true⟩ [LiveTick.mk false [] true false] =
      Gaze.liveLoop ⟨∅, true, true⟩ [] :=
  ⟨rfl, (failed_frame_read_retry ⟨∅, true, true⟩ (LiveTick.mk false [] true false)
    [] rfl).1⟩

/-- C9: dispatching a `ping` sends exactly one `pong` (and nothing else,
with unchanged state) in both variants, and in the message loop the pong
precedes every outbound message produced for frames received after the
ping. -/
theorem ping_single_pong_ordering :
    ∀ (st : TrackerState) (fields : List (String × JValue)) (ticks : List Tick)
      (lticks : List LiveTick) (cam : Bool) (rest : List (Frame × List Tick)),
      dictGet fields "type" = some (JValue.str "ping") →
      App.process_message st (JValue.obj fields) ticks =
        DispatchResult.ok st [OutMsg.pong] ∧
      Gaze.process_message st (JValue.obj fields) cam lticks =
        DispatchResult.ok st [OutMsg.pong] ∧
      App.messageLoop st ((Frame.text (some (JValue.obj fields)), ticks) :: rest) =
        ⟨(App.messageLoop st rest).st,
          OutMsg.pong :: (App.messageLoop st rest).out,
          (App.messageLoop st rest).torn⟩ := by
  intro st fields ticks lticks cam rest h
  have h1 : App.process_message st (JValue.obj fields) ticks =
      DispatchResult.ok st [OutMsg.pong] := by
    rw [App.process_message_get st ticks fields "ping" h]
    rfl
  refine ⟨h1, ?_, ?_⟩
  · rw [Gaze.process_message_get_live st cam lticks fields "ping" h]
    rfl
  · rw [App.messageLoop_ok st st (JValue.obj fields) ticks [OutMsg.pong] rest h1]
    rfl

theorem ping_single_pong_ordering_witness :
    dictGet [("type", JValue.str "ping")] "type" = some (JValue.str "ping") ∧
    App.process_message tracker0 (JValue.obj [("type", JValue.str "ping")]) [] =
      DispatchResult.ok tracker0 [OutMsg.pong] :=
  ⟨rfl, (ping_single_pong_ordering tracker0 [("type", JValue.str "ping")]
    [] [] true [] rfl).1⟩

namespace App

/-- On a payload that is valid JSON but not an object, `data.get('type')`
raises `AttributeError` before anything is sent or mutated. -/
theorem process_message_nonobj (st : TrackerState) (v : JValue) (ticks : List Tick)
    (h : v.isObj = false) :
    process_message st v ticks = DispatchResult.raised st [] := by
  cases v with
  | obj fields => simp [JValue.isObj] at h
  | str s => rfl
  | num n => rfl
  | arr elems => rfl
  | bool b => rfl
  | null => rfl

end App

namespace Gaze

/-- On a payload that is valid JSON but not an object, `data.get('type')`
raises `AttributeError` before anything is sent or mutated (websockets
variant). -/
theorem process_message_nonobj_live (st : TrackerState) (v : JValue) (cam : Bool)
    (ticks : List LiveTick) (h : v.isObj = false) :
    process_message st v cam ticks = DispatchResult.raised st [] := by
  cases v with
  | obj fields => simp [JValue.isObj] at h
  | str s => rfl
  | num n => rfl
  | arr elems => rfl
  | bool b => rfl
  | null => rfl

end Gaze

/-- C10: a valid-JSON non-object payload makes `data.get('type')` raise
`AttributeError` in both variants, but the variants diverge: in `app.py`
the exception escapes the message loop (only `json.JSONDecodeError` is
caught inside it), the remaining frames are never processed, no error reply
is sent, and the handler's `finally` removes the session from the registry;
in `eye_gaze.py` a second `except Exception` inside the loop swallows it
and the session continues with the remaining frames as if the bad frame had
not arrived. -/
theorem nonobject_json_variant_divergence :
    ∀ (st : TrackerState) (v : JValue) (ticks : List Tick) (lticks : List LiveTick)
      (frames : List (Frame × List Tick)) (gframes : List (Frame × List LiveTick))
      (cam : Bool) (maxConnections : Nat) (sid : Nat),
      v.isObj = false →
      App.process_message st v ticks = DispatchResult.raised st [] ∧
      App.messageLoop st ((Frame.text (some v), ticks) :: frames) = ⟨st, [], true⟩ ∧
      Gaze.process_message st v cam lticks = DispatchResult.raised st [] ∧
      Gaze.messageLoop cam st ((Frame.text (some v), lticks) :: gframes) =
        Gaze.messageLoop cam st gframes ∧
      (st.connected_clients.card < maxConnections →
        sid ∉ (App.handle_websocket maxConnections st sid
          [(Frame.text (some v), ticks)]).clients ∧
        (App.handle_websocket maxConnections st sid
          [(Frame.text (some v), ticks)]).sent = [welcomeMsg maxConnections]) := by
  intro st v ticks lticks frames gframes cam maxConnections sid h
  have ha := App.process_message_nonobj st v ticks h
  have hg := Gaze.process_message_nonobj_live st v cam lticks h
  have hloop : App.messageLoop st ((Frame.text (some v), ticks) :: frames) =
      ⟨st, [], true⟩ := by
    simp [App.messageLoop, ha]
  refine ⟨ha, hloop, hg, ?_, ?_⟩
  · simp [Gaze.messageLoop, hg]
  · intro hlt
    have hc : ¬ maxConnections ≤ st.connected_clients.card := Nat.not_le.mpr hlt
    have hloop1 : App.messageLoop
        { st with connected_clients := insert sid st.connected_clients }
        [(Frame.text (some v), ticks)] =
        ⟨{ st with connected_clients := insert sid st.connected_clients }, [], true⟩ := by
      simp [App.messageLoop,
        App.process_message_nonobj
          { st with connected_clients := insert sid st.connected_clients } v ticks h]
    constructor
    · simp [App.handle_websocket, admitOrRefuse, hc, hloop1, release]
    · simp [App.handle_websocket, admitOrRefuse, hc, hloop1]

theorem nonobject_json_variant_divergence_witness :
    (JValue.num 5).isObj = false ∧
    tracker0.connected_clients.card < 1 ∧
    7 ∉ (App.handle_websocket 1 tracker0 7
      [(Frame.text (some (JValue.num 5)), [])]).clients :=
  ⟨rfl, by decide,
    ((nonobject_json_variant_divergence tracker0 (JValue.num 5) [] [] [] [] true 1 7
      rfl).2.2.2.2 (by decide)).1⟩
